import Mathlib

/-!
Shallow embedding of the Sticker Sketchpad drawing core
(`src/src/main.ts`, final snapshot, lines 479-933).

The core state consists of the history arrays `displayList` (committed
drawables, oldest first) and `redoStack` (undone drawables, most recent
undo at the end), the gesture flag `isDrawing`, the tool configuration
(`toolMode`, `selectedStickerIdx`, `selectedLineWidth`, `markerHue`,
`stickerRotationDeg`, the mutable `STICKERS` array), the in-progress
`activeCommand` and the hover `currentPreview`.

Numbers are modelled as rationals (the widths 3 and 9 give radii 3/2 and
9/2, and all coordinates are finite reals in practice).  Canvas 2D calls
are modelled as a trace of `RenderOp` values emitted in call order; the
two irrational arguments appearing in the source are encoded exactly:
`arc`'s start/end angles are stored as rational multiples of pi (the code
always passes `0` and `2 * Math.PI`), and `rotate`'s argument is stored in
degrees (the code passes `deg * Math.PI / 180` radians).

Each event handler returns the updated state together with a `Bool`
recording whether it dispatched the `drawing-changed` change notification.
DOM-only effects (pointer capture, CSS classes, button re-rendering) are
outside the modelled state.
-/

namespace Sketchpad

/-- Model of `type Point = { x: number; y: number }` (canvas-local coordinates). -/
structure Point where
  x : ℚ
  y : ℚ
deriving DecidableEq, Repr

/-- Model of `type StickerDef = { glyph: string; size: number }`. -/
structure StickerDef where
  glyph : String
  size : ℚ
deriving DecidableEq, Repr

/-- Model of `type ToolMode = "pen" | "sticker"`. -/
inductive ToolMode where
  | pen
  | sticker
deriving DecidableEq, Repr

/-- One recorded Canvas-2D call.  `arc`'s two final arguments are the
start and end angles as rational multiples of pi; `rotate`'s argument is
the rotation in degrees (the source passes `deg * Math.PI / 180`). -/
inductive RenderOp where
  | save
  | restore
  | clearRect (x y w h : ℚ)
  | fillRect (x y w h : ℚ)
  | setLineCap (v : String)
  | setLineJoin (v : String)
  | setLineWidth (w : ℚ)
  | setStrokeStyle (c : String)
  | setFillStyle (c : String)
  | setGlobalAlpha (a : ℚ)
  | setFont (f : String)
  | setTextAlign (v : String)
  | setTextBaseline (v : String)
  | beginPath
  | moveTo (x y : ℚ)
  | lineTo (x y : ℚ)
  | arc (x y r a0 a1 : ℚ)
  | fill
  | stroke
  | fillText (txt : String) (x y : ℚ)
  | translate (x y : ℚ)
  | rotate (deg : ℚ)
  | scale (sx sy : ℚ)
deriving DecidableEq, Repr

/-- The four `Displayable` variants produced by the factory functions
`createMarkerLine`, `createPlaceSticker`, `createToolPreviewPen` and
`createStickerPreview`; each carries exactly the state the corresponding
closure captures. -/
inductive Drawable where
  | markerLine (pts : List Point) (width : ℚ) (color : String)
  | placeSticker (anchor : Point) (emoji : String) (size : ℚ) (rotationDeg : ℚ)
  | toolPreviewPen (center : Point) (width : ℚ) (color : String)
  | stickerPreview (center : Point) (emoji : String) (size : ℚ) (rotationDeg : ℚ)
deriving DecidableEq, Repr

/-- Source constant `THIN_WIDTH = 3`. -/
def THIN_WIDTH : ℚ := 3

/-- Source constant `THICK_WIDTH = 9`. -/
def THICK_WIDTH : ℚ := 9

/-- Source constant `DEFAULT_STICKER_SIZE = 36`. -/
def DEFAULT_STICKER_SIZE : ℚ := 36

/-- Source constant `PREVIEW_ALPHA = 0.85`. -/
def PREVIEW_ALPHA : ℚ := 17 / 20

/-- The canvas is created with `width: "256"`. -/
def canvasWidth : ℚ := 256

/-- The canvas is created with `height: "256"`. -/
def canvasHeight : ℚ := 256

/-- Function `hueToColor`, producing the string `hsl(h 80% 45%)`. -/
def hueToColor (h : ℚ) : String :=
  "hsl(" ++ toString h ++ " 80% 45%)"

/-- The font string `${size}px system-ui, Apple Color Emoji, Segoe UI
Emoji, Noto Color Emoji` used by both sticker renderers. -/
def stickerFont (size : ℚ) : String :=
  toString size ++ "px system-ui, Apple Color Emoji, Segoe UI Emoji, Noto Color Emoji"

/-- Factory `createMarkerLine(initial, width, color)`: a freehand stroke
seeded with one point. -/
def createMarkerLine (initial : Point) (width : ℚ) (color : String) : Drawable :=
  Drawable.markerLine [initial] width color

/-- Factory `createPlaceSticker(initial, emoji, size, rotationDeg)`. -/
def createPlaceSticker (initial : Point) (emoji : String) (size : ℚ)
    (rotationDeg : ℚ) : Drawable :=
  Drawable.placeSticker initial emoji size rotationDeg

/-- Factory `createToolPreviewPen(center, width, color)`. -/
def createToolPreviewPen (center : Point) (width : ℚ) (color : String) : Drawable :=
  Drawable.toolPreviewPen center width color

/-- Factory `createStickerPreview(center, emoji, size, rotationDeg)`. -/
def createStickerPreview (center : Point) (emoji : String) (size : ℚ)
    (rotationDeg : ℚ) : Drawable :=
  Drawable.stickerPreview center emoji size rotationDeg

/-- The `display(ctx)` method of each `Displayable`, as the trace of
canvas calls it performs.  For `markerLine`: if the stroke has fewer than
two points it draws a filled circle of radius `Math.max(1, width / 2)` at
the single point, otherwise a `moveTo`/`lineTo` polyline through all
points; the empty-points case cannot arise (a marker line is created
holding its initial point and only ever appends). -/
def Drawable.display : Drawable → List RenderOp
  | Drawable.markerLine pts width color =>
      [RenderOp.save, RenderOp.setLineCap "round", RenderOp.setLineJoin "round",
       RenderOp.setLineWidth width, RenderOp.setStrokeStyle color] ++
      (match pts with
       | [] => []
       | [p] =>
           [RenderOp.beginPath,
            RenderOp.arc p.x p.y (max 1 (width / 2)) 0 2,
            RenderOp.setFillStyle color, RenderOp.fill]
       | p :: rest =>
           [RenderOp.beginPath, RenderOp.moveTo p.x p.y] ++
           rest.map (fun q => RenderOp.lineTo q.x q.y) ++
           [RenderOp.stroke]) ++
      [RenderOp.restore]
  | Drawable.placeSticker anchor emoji size rotationDeg =>
      [RenderOp.save, RenderOp.translate anchor.x anchor.y,
       RenderOp.rotate rotationDeg, RenderOp.setFont (stickerFont size),
       RenderOp.setTextAlign "center", RenderOp.setTextBaseline "middle",
       RenderOp.fillText emoji 0 0, RenderOp.restore]
  | Drawable.toolPreviewPen center width color =>
      [RenderOp.save, RenderOp.setLineWidth (3 / 2),
       RenderOp.setStrokeStyle color, RenderOp.setGlobalAlpha PREVIEW_ALPHA,
       RenderOp.setFillStyle color, RenderOp.beginPath,
       RenderOp.arc center.x center.y (max 1 (width / 2)) 0 2,
       RenderOp.fill, RenderOp.stroke, RenderOp.restore]
  | Drawable.stickerPreview center emoji size rotationDeg =>
      [RenderOp.save, RenderOp.translate center.x center.y,
       RenderOp.rotate rotationDeg, RenderOp.setFont (stickerFont size),
       RenderOp.setTextAlign "center", RenderOp.setTextBaseline "middle",
       RenderOp.setGlobalAlpha (9 / 10), RenderOp.fillText emoji 0 0,
       RenderOp.restore]

/-- The mutable module-level state of `main.ts`. -/
structure AppState where
  displayList : List Drawable
  redoStack : List Drawable
  isDrawing : Bool
  toolMode : ToolMode
  stickers : List StickerDef
  selectedStickerIdx : Option Nat
  activeCommand : Option Drawable
  currentPreview : Option Drawable
  selectedLineWidth : ℚ
  markerHue : ℚ
  stickerRotationDeg : ℚ
deriving DecidableEq, Repr

/-- The initial `STICKERS` array. -/
def initialStickers : List StickerDef :=
  [{ glyph := "🍎", size := DEFAULT_STICKER_SIZE },
   { glyph := "🍌", size := DEFAULT_STICKER_SIZE },
   { glyph := "🥝", size := DEFAULT_STICKER_SIZE }]

/-- Module state after start-up (`setActiveTool(THIN_WIDTH)` leaves pen
mode, width 3, no sticker selected; `markerHue` starts at 210). -/
def initialState : AppState where
  displayList := []
  redoStack := []
  isDrawing := false
  toolMode := ToolMode.pen
  stickers := initialStickers
  selectedStickerIdx := none
  activeCommand := none
  currentPreview := none
  selectedLineWidth := THIN_WIDTH
  markerHue := 210
  stickerRotationDeg := 0

/-- Handler `beginStroke(ev)` (lines 801-823).  The pointer position is taken
already translated to canvas-local coordinates (`posFromPointer`).  Note
that `isDrawing = true`, `currentPreview = null` and `redoStack.length =
0` all happen before the sticker-mode guard, so the early return for
sticker mode with no selected sticker keeps those mutations.  In sticker
mode `STICKERS[selectedStickerIdx]` is always in range in the running
app; out-of-range indexing (a JS crash) is modelled with a dummy default.
Returns the new state and whether `drawing-changed` was dispatched. -/
def beginStroke (p : Point) (s : AppState) : AppState × Bool :=
  let s1 := { s with isDrawing := true, currentPreview := none, redoStack := [] }
  match s1.toolMode with
  | ToolMode.pen =>
      let cmd := createMarkerLine p s1.selectedLineWidth (hueToColor s1.markerHue)
      ({ s1 with activeCommand := some cmd,
                 displayList := s1.displayList ++ [cmd] }, true)
  | ToolMode.sticker =>
      match s1.selectedStickerIdx with
      | none => (s1, false)
      | some i =>
          let sd := s1.stickers.getD i { glyph := "", size := 0 }
          let cmd := createPlaceSticker p sd.glyph sd.size s1.stickerRotationDeg
          ({ s1 with activeCommand := some cmd,
                     displayList := s1.displayList ++ [cmd] }, true)

/-- Handler `endStroke(ev)` (lines 834-858): early return when not drawing
(before any state change and before the notification dispatch); otherwise
clear the drawing flag, install a fresh preview at the release point for
the current tool, drop `activeCommand`, and dispatch. -/
def endStroke (p : Point) (s : AppState) : AppState × Bool :=
  if s.isDrawing then
    let s1 := { s with isDrawing := false }
    let s2 :=
      match s1.toolMode with
      | ToolMode.pen =>
          let pv := createToolPreviewPen p s1.selectedLineWidth (hueToColor s1.markerHue)
          { s1 with currentPreview := some pv }
      | ToolMode.sticker =>
          match s1.selectedStickerIdx with
          | some i =>
              let sd := s1.stickers.getD i { glyph := "", size := 0 }
              let pv := createStickerPreview p sd.glyph sd.size s1.stickerRotationDeg
              { s1 with currentPreview := some pv }
          | none => s1
    ({ s2 with activeCommand := none }, true)
  else (s, false)

/-- The `undoBtn` click handler (lines 904-909): early return (no
dispatch) when `displayList` is empty, otherwise pop the last committed
drawable and push it onto `redoStack`. -/
def undo (s : AppState) : AppState × Bool :=
  match s.displayList.getLast? with
  | none => (s, false)
  | some popped =>
      ({ s with displayList := s.displayList.dropLast,
                redoStack := s.redoStack ++ [popped] }, true)

/-- The `redoBtn` click handler (lines 911-916): early return (no
dispatch) when `redoStack` is empty, otherwise pop its last element and
push it back onto `displayList`. -/
def redo (s : AppState) : AppState × Bool :=
  match s.redoStack.getLast? with
  | none => (s, false)
  | some popped =>
      ({ s with redoStack := s.redoStack.dropLast,
                displayList := s.displayList ++ [popped] }, true)

/-- The `clearBtn` click handler (lines 898-902): empty both arrays and
dispatch. -/
def clear (s : AppState) : AppState × Bool :=
  ({ s with displayList := [], redoStack := [] }, true)

/-- The effect of `beginStroke` on the history arrays alone (lines
806 and 821): any commit appends the new drawable to `displayList` and
unconditionally empties `redoStack`.  `beginStroke_pen_commit` below
proves this is exactly what a pen gesture does. -/
def commit (s : AppState) (d : Drawable) : AppState :=
  { s with displayList := s.displayList ++ [d], redoStack := [] }

/-- Folding `commit` over a list: a sequence of commits, oldest first. -/
def commitAll (s : AppState) (ds : List Drawable) : AppState :=
  ds.foldl commit s

/-- Apply the Undo handler `n` consecutive times. -/
def undoN : Nat → AppState → AppState
  | 0, s => s
  | n + 1, s => undoN n (undo s).1

/-- Sequential emission of `cmd.display(ctx)` for each command of a
display list (the `for (const cmd of displayList)` loops in `redraw` and
`exportHighResPNG`), starting from the calls already emitted. -/
def displayAll (acc : List RenderOp) (l : List Drawable) : List RenderOp :=
  l.foldl (fun a cmd => a ++ cmd.display) acc

/-- Handler `redraw()` (lines 762-766): clear the full surface, replay every
committed drawable in order, then the preview if any.  The handler writes
no module state, so the state component of the result is the input
state. -/
def redraw (s : AppState) : AppState × List RenderOp :=
  (s,
   displayAll [RenderOp.clearRect 0 0 canvasWidth canvasHeight] s.displayList ++
   (match s.currentPreview with
    | some pv => pv.display
    | none => []))

/-- Handler `exportHighResPNG()` (lines 768-798): on a fresh off-screen canvas of
size `256 * 4`, scale by `SCALE = 4`, pre-fill an opaque white background
over `out.width / SCALE` by `out.height / SCALE`, replay exactly the
committed drawables, restore.  Blob encoding and the download link are
outside the model.  The function reads only `displayList` and writes no
module state. -/
def exportHighResPNG (s : AppState) : AppState × List RenderOp :=
  (s,
   displayAll
     [RenderOp.save, RenderOp.scale 4 4, RenderOp.setFillStyle "#fff",
      RenderOp.fillRect 0 0 canvasWidth canvasHeight] s.displayList ++
   [RenderOp.restore])

/-- Wiring `canvas.addEventListener("pointerup", endStroke)` (line 924). -/
def onPointerUp (p : Point) (s : AppState) : AppState × Bool :=
  endStroke p s

/-- Wiring `canvas.addEventListener("pointerleave", endStroke)` (line 925). -/
def onPointerLeave (p : Point) (s : AppState) : AppState × Bool :=
  endStroke p s

/-- Wiring `canvas.addEventListener("pointercancel", endStroke)` (line 926). -/
def onPointerCancel (p : Point) (s : AppState) : AppState × Bool :=
  endStroke p s

/-- Selector for the path-building calls (`moveTo`, `lineTo`, `arc`)
among a display trace; everything else is styling or save/restore. -/
def isPathOp : RenderOp → Bool
  | RenderOp.moveTo _ _ => true
  | RenderOp.lineTo _ _ => true
  | RenderOp.arc _ _ _ _ _ => true
  | _ => false

/-- The path-building calls of a display trace, in order. -/
def pathOps (ops : List RenderOp) : List RenderOp :=
  ops.filter isPathOp

/-- A state in sticker mode with no sticker selected, a nonempty redo
stack and a live preview; used to probe the pointer-down edge case. -/
def c1Before : AppState :=
  { initialState with
      toolMode := ToolMode.sticker,
      redoStack := [Drawable.markerLine [⟨1, 1⟩] 3 "a"],
      currentPreview := some (Drawable.toolPreviewPen ⟨2, 2⟩ 3 "c") }

/-- A pen-mode `beginStroke` acts on the history arrays exactly as
`commit` with the freshly created marker line, and dispatches the change
notification. -/
theorem beginStroke_pen_commit (p : Point) (s : AppState)
    (h : s.toolMode = ToolMode.pen) :
    (beginStroke p s).1.displayList =
      (commit s (createMarkerLine p s.selectedLineWidth (hueToColor s.markerHue))).displayList ∧
    (beginStroke p s).1.redoStack =
      (commit s (createMarkerLine p s.selectedLineWidth (hueToColor s.markerHue))).redoStack ∧
    (beginStroke p s).2 = true := by
  simp [beginStroke, commit, h]

/-- Committing a list of drawables appends them to `displayList` in
order. -/
theorem commitAll_displayList (ds : List Drawable) (s : AppState) :
    (commitAll s ds).displayList = s.displayList ++ ds := by
  induction ds generalizing s with
  | nil => simp [commitAll]
  | cons d rest ih =>
      show (commitAll (commit s d) rest).displayList = _
      rw [ih]
      simp [commit]

/-- Committing drawables never re-populates an empty redo stack. -/
theorem commitAll_redoStack (ds : List Drawable) (s : AppState)
    (h : s.redoStack = []) : (commitAll s ds).redoStack = [] := by
  induction ds generalizing s with
  | nil => exact h
  | cons d rest ih =>
      show (commitAll (commit s d) rest).redoStack = []
      exact ih _ rfl

/-- Pressing Undo once per committed drawable empties `displayList` and
pushes the drawables onto `redoStack` in reverse order. -/
theorem undoN_spec (l : List Drawable) :
    ∀ s : AppState, s.displayList = l →
      (undoN l.length s).displayList = [] ∧
      (undoN l.length s).redoStack = s.redoStack ++ l.reverse := by
  induction l using List.reverseRecOn with
  | nil =>
      intro s h
      simp [undoN, h]
  | append_singleton init a ih =>
      intro s h
      have hd : (undo s).1.displayList = init := by
        simp [undo, h, List.getLast?_concat, List.dropLast_concat]
      have hr : (undo s).1.redoStack = s.redoStack ++ [a] := by
        simp [undo, h, List.getLast?_concat]
      have hstep : undoN (init ++ [a]).length s = undoN init.length (undo s).1 := by
        rw [show (init ++ [a]).length = init.length + 1 by simp]
        rfl
      rw [hstep]
      obtain ⟨g1, g2⟩ := ih (undo s).1 hd
      refine ⟨g1, ?_⟩
      rw [g2, hr]
      simp

/-- Emitting display calls with a `for` loop concatenates the per-command
traces in order. -/
theorem displayAll_eq (l : List Drawable) (acc : List RenderOp) :
    displayAll acc l = acc ++ (l.map Drawable.display).flatten := by
  induction l generalizing acc with
  | nil => simp [displayAll]
  | cons d rest ih =>
      show displayAll (acc ++ d.display) rest = _
      rw [ih]
      simp

/-- Claim C1, counterexample: from a state in sticker mode with no
sticker selected but a nonempty redo stack and a live preview, a
pointer-down followed by a pointer-up is not observation-free — the
pointer-down clears `redoStack` and `currentPreview` before the early
return, so the state after the gesture differs from the state before. -/
theorem sticker_noTool_not_silent_counterexample :
    ¬ (((endStroke ⟨5, 5⟩ (beginStroke ⟨5, 5⟩ c1Before).1).1).displayList = c1Before.displayList ∧
       ((endStroke ⟨5, 5⟩ (beginStroke ⟨5, 5⟩ c1Before).1).1).redoStack = c1Before.redoStack ∧
       ((endStroke ⟨5, 5⟩ (beginStroke ⟨5, 5⟩ c1Before).1).1).currentPreview = c1Before.currentPreview ∧
       ((endStroke ⟨5, 5⟩ (beginStroke ⟨5, 5⟩ c1Before).1).1).isDrawing = c1Before.isDrawing) := by
  decide

/-- Claim C1, amended: a pointer-down in sticker mode with no sticker
selected creates no drawable, adds nothing to `committed`, and dispatches
no notification; after the subsequent pointer-up the committed sequence
is unchanged and the drawing flag is back to `false` — but the
pointer-down has unconditionally emptied the redo stack and reset the
preview, so those two components do not return to their prior values. -/
theorem sticker_noTool_amended (p q : Point) (s : AppState)
    (hm : s.toolMode = ToolMode.sticker) (hi : s.selectedStickerIdx = none) :
    (beginStroke p s).2 = false ∧
    ((beginStroke p s).1).displayList = s.displayList ∧
    ((beginStroke p s).1).activeCommand = s.activeCommand ∧
    ((endStroke q (beginStroke p s).1).1).displayList = s.displayList ∧
    ((endStroke q (beginStroke p s).1).1).redoStack = [] ∧
    ((endStroke q (beginStroke p s).1).1).currentPreview = none ∧
    ((endStroke q (beginStroke p s).1).1).isDrawing = false := by
  simp [beginStroke, endStroke, hm, hi]

/-- Witness for the amended claim C1 at a concrete state and point. -/
theorem sticker_noTool_amended_witness :
    (beginStroke ⟨5, 5⟩ c1Before).2 = false ∧
    ((beginStroke ⟨5, 5⟩ c1Before).1).displayList = c1Before.displayList ∧
    ((beginStroke ⟨5, 5⟩ c1Before).1).activeCommand = c1Before.activeCommand ∧
    ((endStroke ⟨5, 5⟩ (beginStroke ⟨5, 5⟩ c1Before).1).1).displayList = c1Before.displayList ∧
    ((endStroke ⟨5, 5⟩ (beginStroke ⟨5, 5⟩ c1Before).1).1).redoStack = [] ∧
    ((endStroke ⟨5, 5⟩ (beginStroke ⟨5, 5⟩ c1Before).1).1).currentPreview = none ∧
    ((endStroke ⟨5, 5⟩ (beginStroke ⟨5, 5⟩ c1Before).1).1).isDrawing = false :=
  sticker_noTool_amended ⟨5, 5⟩ ⟨5, 5⟩ c1Before rfl rfl

/-- Claim C2: from empty history, any sequence of N commits followed by N
undos leaves `committed` empty and `undone` holding exactly the N
committed drawables in reverse commit order. -/
theorem commits_then_undos (ds : List Drawable) (s : AppState)
    (h1 : s.displayList = []) (h2 : s.redoStack = []) :
    (undoN ds.length (commitAll s ds)).displayList = [] ∧
    (undoN ds.length (commitAll s ds)).redoStack = ds.reverse := by
  have hd : (commitAll s ds).displayList = ds := by
    rw [commitAll_displayList, h1]
    simp
  obtain ⟨g1, g2⟩ := undoN_spec ds (commitAll s ds) hd
  refine ⟨g1, ?_⟩
  rw [g2, commitAll_redoStack ds s h2]
  simp

/-- Witness for claim C2: two commits then two undos from the initial
state. -/
theorem commits_then_undos_witness :
    (undoN 2 (commitAll initialState [Drawable.markerLine [⟨1,1⟩] 3 "a", Drawable.markerLine [⟨2,2⟩] 3 "b"])).displayList = [] ∧
    (undoN 2 (commitAll initialState [Drawable.markerLine [⟨1,1⟩] 3 "a", Drawable.markerLine [⟨2,2⟩] 3 "b"])).redoStack = [Drawable.markerLine [⟨1,1⟩] 3 "a", Drawable.markerLine [⟨2,2⟩] 3 "b"].reverse :=
  commits_then_undos [Drawable.markerLine [⟨1,1⟩] 3 "a", Drawable.markerLine [⟨2,2⟩] 3 "b"] initialState rfl rfl

/-- Claim C3: from any state, committing a drawable, undoing, then
redoing restores `committed` to the prior committed sequence with the
drawable re-appended, and leaves `undone` empty. -/
theorem undo_redo_roundtrip (s : AppState) (d : Drawable) :
    ((redo (undo (commit s d)).1).1).displayList = s.displayList ++ [d] ∧
    ((redo (undo (commit s d)).1).1).redoStack = [] := by
  have h1 : (undo (commit s d)).1.displayList = s.displayList := by
    simp [undo, commit, List.getLast?_concat, List.dropLast_concat]
  have h2 : (undo (commit s d)).1.redoStack = [d] := by
    simp [undo, commit, List.getLast?_concat]
  constructor
  · simp [redo, h2, h1]
  · simp [redo, h2]

/-- Claim C4: every commit appends the drawable to the end of `committed`
and unconditionally empties `undone`; in the scenario commit A, commit B,
undo (leaving `undone = [B]`), commit C, the final state is
`committed = [A, C]` and `undone = []`. -/
theorem commit_appends_and_clears (s : AppState) (d : Drawable)
    (s0 : AppState) (a b c : Drawable) (h0 : s0.displayList = []) :
    (commit s d).displayList = s.displayList ++ [d] ∧
    (commit s d).redoStack = [] ∧
    (undo (commit (commit s0 a) b)).1.redoStack = [b] ∧
    (commit (undo (commit (commit s0 a) b)).1 c).displayList = [a, c] ∧
    (commit (undo (commit (commit s0 a) b)).1 c).redoStack = [] := by
  have hmid : (undo (commit (commit s0 a) b)).1.displayList = [a] := by
    simp [undo, commit, h0, List.getLast?_concat, List.dropLast_concat]
  have hr : (undo (commit (commit s0 a) b)).1.redoStack = [b] := by
    simp [undo, commit, h0, List.getLast?_concat]
  refine ⟨rfl, rfl, hr, ?_, rfl⟩
  have hc : (commit (undo (commit (commit s0 a) b)).1 c).displayList =
      (undo (commit (commit s0 a) b)).1.displayList ++ [c] := rfl
  rw [hc, hmid]
  rfl

/-- Witness for claim C4 at a concrete state and concrete drawables. -/
theorem commit_appends_and_clears_witness :
    (commit initialState (Drawable.markerLine [⟨1,1⟩] 3 "a")).displayList = initialState.displayList ++ [Drawable.markerLine [⟨1,1⟩] 3 "a"] ∧
    (commit initialState (Drawable.markerLine [⟨1,1⟩] 3 "a")).redoStack = [] ∧
    (undo (commit (commit initialState (Drawable.markerLine [⟨1,1⟩] 3 "a")) (Drawable.markerLine [⟨2,2⟩] 3 "b"))).1.redoStack = [Drawable.markerLine [⟨2,2⟩] 3 "b"] ∧
    (commit (undo (commit (commit initialState (Drawable.markerLine [⟨1,1⟩] 3 "a")) (Drawable.markerLine [⟨2,2⟩] 3 "b"))).1 (Drawable.markerLine [⟨3,3⟩] 3 "c")).displayList = [Drawable.markerLine [⟨1,1⟩] 3 "a", Drawable.markerLine [⟨3,3⟩] 3 "c"] ∧
    (commit (undo (commit (commit initialState (Drawable.markerLine [⟨1,1⟩] 3 "a")) (Drawable.markerLine [⟨2,2⟩] 3 "b"))).1 (Drawable.markerLine [⟨3,3⟩] 3 "c")).redoStack = [] :=
  commit_appends_and_clears initialState (Drawable.markerLine [⟨1,1⟩] 3 "a") initialState (Drawable.markerLine [⟨1,1⟩] 3 "a") (Drawable.markerLine [⟨2,2⟩] 3 "b") (Drawable.markerLine [⟨3,3⟩] 3 "c") rfl

/-- Claim C5: Undo on an empty committed sequence and Redo on an empty
redo stack are safe no-ops — the state is returned untouched and no
`drawing-changed` notification is dispatched. -/
theorem undo_redo_empty_noop (s : AppState) :
    (s.displayList = [] → undo s = (s, false)) ∧
    (s.redoStack = [] → redo s = (s, false)) := by
  constructor
  · intro h
    simp [undo, h]
  · intro h
    simp [redo, h]

/-- Witness for claim C5 at the initial state. -/
theorem undo_redo_empty_noop_witness :
    undo initialState = (initialState, false) ∧
    redo initialState = (initialState, false) :=
  ⟨(undo_redo_empty_noop initialState).1 rfl,
   (undo_redo_empty_noop initialState).2 rfl⟩

/-- Claim C6: `clear` empties both history sequences from any starting
state, and a subsequent Undo is a complete no-op (a clear cannot be
undone). -/
theorem clear_empties_and_blocks_undo (s : AppState) :
    (clear s).1.displayList = [] ∧ (clear s).1.redoStack = [] ∧
    undo (clear s).1 = ((clear s).1, false) := by
  refine ⟨rfl, rfl, ?_⟩
  simp [clear, undo]

/-- Claim C7: a marker line with a single recorded point renders as a
filled circle of radius `max 1 (width / 2)` centred at that point (its
only path call is the `arc`, it is filled, and it is never stroked, so it
is not a zero-length line); a marker line with two or more points renders
as one continuous polyline through all recorded points (`moveTo` the
first point then `lineTo` each subsequent point), stroked and not
filled. -/
theorem markerLine_circle_or_polyline (w : ℚ) (c : String) :
    (∀ p : Point,
       pathOps ((Drawable.markerLine [p] w c).display) =
         [RenderOp.arc p.x p.y (max 1 (w / 2)) 0 2] ∧
       RenderOp.fill ∈ (Drawable.markerLine [p] w c).display ∧
       RenderOp.stroke ∉ (Drawable.markerLine [p] w c).display) ∧
    (∀ (p q : Point) (rest : List Point),
       pathOps ((Drawable.markerLine (p :: q :: rest) w c).display) =
         RenderOp.moveTo p.x p.y ::
           (q :: rest).map (fun r => RenderOp.lineTo r.x r.y) ∧
       RenderOp.stroke ∈ (Drawable.markerLine (p :: q :: rest) w c).display ∧
       RenderOp.fill ∉ (Drawable.markerLine (p :: q :: rest) w c).display) := by
  constructor
  · intro p
    refine ⟨?_, ?_, ?_⟩
    · simp [Drawable.display, pathOps, isPathOp, List.filter]
    · simp [Drawable.display]
    · simp [Drawable.display]
  · intro p q rest
    refine ⟨?_, ?_, ?_⟩
    · have hf : ∀ l : List Point,
          List.filter (isPathOp ∘ fun r => RenderOp.lineTo r.x r.y) l = l := by
        intro l
        induction l with
        | nil => rfl
        | cons x xs ih => simp [List.filter, isPathOp, Function.comp, ih]
      simp [Drawable.display, pathOps, isPathOp, List.filter_append,
            List.filter_map, Function.comp, hf]
    · simp [Drawable.display]
    · simp [Drawable.display]

/-- Claim C8: `redraw` writes no state (the returned state is the input
state), its trace clears the full surface first, then replays every
committed drawable in insertion order, then the preview trace (if any)
last — so the preview is always on top — and repeating it on the
unchanged state yields the identical trace. -/
theorem redraw_clears_committed_preview (s : AppState) :
    (redraw s).1 = s ∧
    (redraw s).2 =
      RenderOp.clearRect 0 0 canvasWidth canvasHeight ::
        ((s.displayList.map Drawable.display).flatten ++
          (match s.currentPreview with
           | some pv => pv.display
           | none => [])) ∧
    (redraw (redraw s).1).2 = (redraw s).2 := by
  refine ⟨rfl, ?_, rfl⟩
  show displayAll _ _ ++ _ = _
  rw [displayAll_eq]
  simp

/-- Claim C9: the raster export depends only on `committed` (any two
states with the same committed sequence — regardless of preview and redo
stack — export the same trace), leaves the state untouched, and its trace
scales by the integer factor 4, pre-fills an opaque white background, and
then replays exactly the committed drawables in order; the preview is
never rendered. -/
theorem export_replays_committed_only (s t : AppState)
    (h : s.displayList = t.displayList) :
    (exportHighResPNG s).2 = (exportHighResPNG t).2 ∧
    (exportHighResPNG s).1 = s ∧
    (exportHighResPNG s).2 =
      [RenderOp.save, RenderOp.scale 4 4, RenderOp.setFillStyle "#fff",
       RenderOp.fillRect 0 0 canvasWidth canvasHeight] ++
      (s.displayList.map Drawable.display).flatten ++ [RenderOp.restore] := by
  refine ⟨?_, rfl, ?_⟩
  · show displayAll _ _ ++ _ = displayAll _ _ ++ _
    rw [h]
  · show displayAll _ _ ++ _ = _
    rw [displayAll_eq]

/-- Witness for claim C9: the initial state and the initial state with a
live preview and a nonempty redo stack export the identical trace. -/
theorem export_replays_committed_only_witness :
    (exportHighResPNG { initialState with currentPreview := some (Drawable.toolPreviewPen ⟨2,2⟩ 3 "c"), redoStack := [Drawable.markerLine [⟨1,1⟩] 3 "a"] }).2 = (exportHighResPNG initialState).2 ∧
    (exportHighResPNG { initialState with currentPreview := some (Drawable.toolPreviewPen ⟨2,2⟩ 3 "c"), redoStack := [Drawable.markerLine [⟨1,1⟩] 3 "a"] }).1 = { initialState with currentPreview := some (Drawable.toolPreviewPen ⟨2,2⟩ 3 "c"), redoStack := [Drawable.markerLine [⟨1,1⟩] 3 "a"] } ∧
    (exportHighResPNG { initialState with currentPreview := some (Drawable.toolPreviewPen ⟨2,2⟩ 3 "c"), redoStack := [Drawable.markerLine [⟨1,1⟩] 3 "a"] }).2 =
      [RenderOp.save, RenderOp.scale 4 4, RenderOp.setFillStyle "#fff",
       RenderOp.fillRect 0 0 canvasWidth canvasHeight] ++
      (({ initialState with currentPreview := some (Drawable.toolPreviewPen ⟨2,2⟩ 3 "c"), redoStack := [Drawable.markerLine [⟨1,1⟩] 3 "a"] } : AppState).displayList.map Drawable.display).flatten ++ [RenderOp.restore] :=
  export_replays_committed_only _ initialState rfl

/-- Claim C10: a pointer-up, pointer-leave or pointer-cancel event
delivered while no gesture is in progress (`isDrawing = false`) returns
the state completely unchanged and dispatches no `drawing-changed`
notification. -/
theorem endStroke_idle_noop (p : Point) (s : AppState)
    (h : s.isDrawing = false) :
    onPointerUp p s = (s, false) ∧ onPointerLeave p s = (s, false) ∧
    onPointerCancel p s = (s, false) := by
  refine ⟨?_, ?_, ?_⟩ <;>
    simp [onPointerUp, onPointerLeave, onPointerCancel, endStroke, h]

/-- Witness for claim C10 at the initial state. -/
theorem endStroke_idle_noop_witness :
    onPointerUp ⟨1, 2⟩ initialState = (initialState, false) ∧
    onPointerLeave ⟨1, 2⟩ initialState = (initialState, false) ∧
    onPointerCancel ⟨1, 2⟩ initialState = (initialState, false) :=
  endStroke_idle_noop ⟨1, 2⟩ initialState rfl

end Sketchpad
